import Mathlib

/-!
Verification of the database-pool configuration resolver
(`src/config/database_pools.rs`).

The resolver reads a snapshot of the process environment and either
produces a `DatabasePools` value or fails with a fatal configuration
error.  Rust panics (`expect` on missing / malformed variables) are
modelled as typed `ConfigError` values, following the design note of the
specification ("Fatal panics on malformed input → represented as a typed,
enumerated `ConfigError` result").
-/

/-- Modelled from the spec: a snapshot of the process environment, a mapping
from variable name to string value.  `dotenvy::var name` returning `Ok v`
corresponds to `some v`, and `Err _` to `none`. -/
abbrev Environment := String → Option String

/-- Modelled from the spec: the deployment environment enumeration (`Env`,
declared outside `src/`).  Only `production` matters here: `enforce_tls`
is true only in the production deployment environment. -/
inductive Env
  | development
  | test
  | production
deriving DecidableEq, BEq, Repr

/-- Modelled from the spec: the fragment of the `Base` configuration
(declared outside `src/`) consumed by the resolver — the deployment
environment. -/
structure Base where
  env : Env
deriving DecidableEq, Repr

/-- The error taxonomy of the spec: a required variable that is absent, or a
numeric variable that is present but not parseable.  Each error carries the
offending variable name (never the secret value). -/
inductive ConfigError
  | missingRequiredValue (name : String)
  | invalidNumericValue (name : String)
deriving DecidableEq, Repr

/-- Per-pool settings (`DbPoolConfig` in the source).  `SecretString` is
modelled as a plain `String`; `u32` values as `Nat` (the parser enforces
the `2 ^ 32` bound). -/
structure DbPoolConfig where
  url : String
  read_only_mode : Bool
  pool_size : Nat
  min_idle : Option Nat
deriving DecidableEq, Repr

/-- The resolved configuration (`DatabasePools` in the source).
`connection_timeout` and `statement_timeout` are `Duration` values built
with `Duration::from_secs`, modelled as their whole number of seconds. -/
structure DatabasePools where
  primary : DbPoolConfig
  replica : Option DbPoolConfig
  tcp_timeout_ms : Nat
  connection_timeout : Nat
  statement_timeout : Nat
  helper_threads : Nat
  enforce_tls : Bool
deriving DecidableEq, Repr

/-- `are_all_read_only` from the source: true iff the primary pool is in
read-only mode (the replica, when present, is always read-only). -/
def DatabasePools.are_all_read_only (self : DatabasePools) : Bool :=
  self.primary.read_only_mode

/-- `DatabasePools::DEFAULT_POOL_SIZE` from the source. -/
def DatabasePools.DEFAULT_POOL_SIZE : Nat := 3

/-- Accumulate decimal digits; any non-digit character rejects the input.
This is the digit loop of Rust's unsigned `FromStr`. -/
def parseDigits : List Char → Nat → Option Nat
  | [], acc => some acc
  | c :: cs, acc =>
    if c.isDigit then parseDigits cs (acc * 10 + (c.toNat - 48)) else none

/-- Rust's `str::parse` for an unsigned integer of width `bits` (`u32`,
`u64`, `usize`): an optional leading `+`, then at least one decimal digit,
no other characters, and the value must fit in the type. -/
def parseUnsigned (bits : Nat) (s : String) : Option Nat :=
  let chars :=
    match s.data with
    | '+' :: rest => rest
    | cs => cs
  match chars with
  | [] => none
  | _ =>
    match parseDigits chars 0 with
    | some n => if n < 2 ^ bits then some n else none
    | none => none

/-- Modelled from the spec: the repository's `env` helper (`crate::env`,
declared outside `src/`) reads a required environment variable and fails
fatally when it is absent; per the spec's error taxonomy the failure is a
`MissingRequiredValue` for that variable. -/
def env (environment : Environment) (name : String) : Except ConfigError String :=
  match environment name with
  | some v => Except.ok v
  | none => Except.error (ConfigError.missingRequiredValue name)

/-- One `match dotenvy::var(name) { Ok(num) => num.parse().expect(..), _ => dflt }`
block of the source: the default when the variable is absent, the parsed
value when present and parseable, and a fatal `InvalidNumericValue`
when present but malformed. -/
def getScalar (environment : Environment) (name : String) (bits dflt : Nat) :
    Except ConfigError Nat :=
  match environment name with
  | some num =>
    match parseUnsigned bits num with
    | some n => Except.ok n
    | none => Except.error (ConfigError.invalidNumericValue name)
  | none => Except.ok dflt

/-- One `match dotenvy::var(name) { Ok(num) => Some(num.parse().expect(..)), _ => None }`
block of the source (the min-idle variables): absent means `none`, never an
error; present-but-malformed is fatal. -/
def getOptScalar (environment : Environment) (name : String) (bits : Nat) :
    Except ConfigError (Option Nat) :=
  match environment name with
  | some num =>
    match parseUnsigned bits num with
    | some n => Except.ok (some n)
    | none => Except.error (ConfigError.invalidNumericValue name)
  | none => Except.ok none

/-- `DatabasePools::full_from_environment` from the source, translated
statement by statement.  `DATABASE_URL` is read eagerly through the `env`
helper before anything else; every numeric variable is read and parsed
before the `DB_OFFLINE` branch; the branch then assembles the result,
turning the two `expect` panics into errors per the spec's design note. -/
def DatabasePools.full_from_environment (base : Base) (environment : Environment) :
    Except ConfigError DatabasePools :=
  match env environment "DATABASE_URL" with
  | Except.error e => Except.error e
  | Except.ok leader_url =>
  match getScalar environment "DB_PRIMARY_POOL_SIZE" 32 DatabasePools.DEFAULT_POOL_SIZE with
  | Except.error e => Except.error e
  | Except.ok primary_pool_size =>
  match getScalar environment "DB_REPLICA_POOL_SIZE" 32 DatabasePools.DEFAULT_POOL_SIZE with
  | Except.error e => Except.error e
  | Except.ok replica_pool_size =>
  match getOptScalar environment "DB_PRIMARY_MIN_IDLE" 32 with
  | Except.error e => Except.error e
  | Except.ok primary_min_idle =>
  match getOptScalar environment "DB_REPLICA_MIN_IDLE" 32 with
  | Except.error e => Except.error e
  | Except.ok replica_min_idle =>
  match getScalar environment "DB_TCP_TIMEOUT_MS" 64 (15 * 1000) with
  | Except.error e => Except.error e
  | Except.ok tcp_timeout_ms =>
  match getScalar environment "DB_TIMEOUT" 64 30 with
  | Except.error e => Except.error e
  | Except.ok connection_timeout =>
  match getScalar environment "DB_HELPER_THREADS" 64 3 with
  | Except.error e => Except.error e
  | Except.ok helper_threads =>
  let statement_timeout := connection_timeout
  let read_only_mode := (environment "READ_ONLY_MODE").isSome
  let enforce_tls := base.env == Env.production
  match environment "DB_OFFLINE" with
  | some "leader" =>
    match environment "READ_ONLY_REPLICA_URL" with
    | some url =>
      Except.ok
        { primary :=
            { url := url
              read_only_mode := true
              pool_size := primary_pool_size
              min_idle := primary_min_idle }
          replica := none
          tcp_timeout_ms, connection_timeout, statement_timeout
          helper_threads, enforce_tls }
    | none => Except.error (ConfigError.missingRequiredValue "READ_ONLY_REPLICA_URL")
  | some "follower" =>
    Except.ok
      { primary :=
          { url := leader_url
            read_only_mode := read_only_mode
            pool_size := primary_pool_size
            min_idle := primary_min_idle }
        replica := none
        tcp_timeout_ms, connection_timeout, statement_timeout
        helper_threads, enforce_tls }
  | _ =>
    Except.ok
      { primary :=
          { url := leader_url
            read_only_mode := read_only_mode
            pool_size := primary_pool_size
            min_idle := primary_min_idle }
        replica := (environment "READ_ONLY_REPLICA_URL").map fun url =>
          { url := url
            read_only_mode := true
            pool_size := replica_pool_size
            min_idle := replica_min_idle }
        tcp_timeout_ms, connection_timeout, statement_timeout
        helper_threads, enforce_tls }

/-- The numeric variable `name` is either absent or parseable at width
`bits` — the condition under which its `match` block cannot fail. -/
def numOk (environment : Environment) (name : String) (bits : Nat) : Bool :=
  match environment name with
  | some s => (parseUnsigned bits s).isSome
  | none => true

/-- Every numeric environment variable is absent or parseable, at the width
the source parses it with. -/
def NumericsWellFormed (environment : Environment) : Prop :=
  numOk environment "DB_PRIMARY_POOL_SIZE" 32 = true ∧
  numOk environment "DB_REPLICA_POOL_SIZE" 32 = true ∧
  numOk environment "DB_PRIMARY_MIN_IDLE" 32 = true ∧
  numOk environment "DB_REPLICA_MIN_IDLE" 32 = true ∧
  numOk environment "DB_TCP_TIMEOUT_MS" 64 = true ∧
  numOk environment "DB_TIMEOUT" 64 = true ∧
  numOk environment "DB_HELPER_THREADS" 64 = true

instance (environment : Environment) : Decidable (NumericsWellFormed environment) := by
  unfold NumericsWellFormed
  infer_instance

/-- The `DB_OFFLINE` value selects one of the two offline override modes. -/
def isOfflineOverride (o : Option String) : Bool :=
  match o with
  | some s => s == "leader" || s == "follower"
  | none => false

/-- The resolution result is an `InvalidNumericValue` error. -/
def isInvalidNumeric (r : Except ConfigError DatabasePools) : Bool :=
  match r with
  | Except.error (ConfigError.invalidNumericValue _) => true
  | _ => false

/-- The resolution result is a `MissingRequiredValue` error. -/
def isMissingRequired (r : Except ConfigError DatabasePools) : Bool :=
  match r with
  | Except.error (ConfigError.missingRequiredValue _) => true
  | _ => false

/-- On success, the primary pool's url. -/
def primaryUrl? (r : Except ConfigError DatabasePools) : Option String :=
  match r with
  | Except.ok res => some res.primary.url
  | Except.error _ => none

/-- On success, the primary pool's read-only flag. -/
def primaryReadOnly? (r : Except ConfigError DatabasePools) : Option Bool :=
  match r with
  | Except.ok res => some res.primary.read_only_mode
  | Except.error _ => none

/-- On success, the primary pool's size. -/
def primaryPoolSize? (r : Except ConfigError DatabasePools) : Option Nat :=
  match r with
  | Except.ok res => some res.primary.pool_size
  | Except.error _ => none

/-- On success, the primary pool's min-idle setting. -/
def primaryMinIdle? (r : Except ConfigError DatabasePools) : Option (Option Nat) :=
  match r with
  | Except.ok res => some res.primary.min_idle
  | Except.error _ => none

/-- On success, the whole optional replica configuration. -/
def replicaConf? (r : Except ConfigError DatabasePools) : Option (Option DbPoolConfig) :=
  match r with
  | Except.ok res => some res.replica
  | Except.error _ => none

/-- On success with a replica present, the replica's url. -/
def replicaUrl? (r : Except ConfigError DatabasePools) : Option String :=
  match r with
  | Except.ok res => res.replica.map fun c => c.url
  | Except.error _ => none

/-- On success with a replica present, the replica's read-only flag. -/
def replicaReadOnly? (r : Except ConfigError DatabasePools) : Option Bool :=
  match r with
  | Except.ok res => res.replica.map fun c => c.read_only_mode
  | Except.error _ => none

/-- On success, the accessor `are_all_read_only` applied to the result. -/
def areAllReadOnly? (r : Except ConfigError DatabasePools) : Option Bool :=
  match r with
  | Except.ok res => some res.are_all_read_only
  | Except.error _ => none

/-- On success, the connection timeout (seconds). -/
def connectionTimeout? (r : Except ConfigError DatabasePools) : Option Nat :=
  match r with
  | Except.ok res => some res.connection_timeout
  | Except.error _ => none

/-- On success, the statement timeout (seconds). -/
def statementTimeout? (r : Except ConfigError DatabasePools) : Option Nat :=
  match r with
  | Except.ok res => some res.statement_timeout
  | Except.error _ => none

/-- On success, the replica's pool size (when a replica exists). -/
def replicaPoolSize? (r : Except ConfigError DatabasePools) : Option (Option Nat) :=
  match r with
  | Except.ok res => some (res.replica.map fun c => c.pool_size)
  | Except.error _ => none

/-- On success, the replica's min-idle setting (when a replica exists). -/
def replicaMinIdle? (r : Except ConfigError DatabasePools) : Option (Option (Option Nat)) :=
  match r with
  | Except.ok res => some (res.replica.map fun c => c.min_idle)
  | Except.error _ => none

/-- On success, the tcp timeout in milliseconds. -/
def tcpTimeout? (r : Except ConfigError DatabasePools) : Option Nat :=
  match r with
  | Except.ok res => some res.tcp_timeout_ms
  | Except.error _ => none

/-- On success, the helper-thread count. -/
def helperThreads? (r : Except ConfigError DatabasePools) : Option Nat :=
  match r with
  | Except.ok res => some res.helper_threads
  | Except.error _ => none

/-- A non-production deployment environment for concrete instantiations. -/
def baseTest : Base := { env := Env.test }

/-- Leader offline with a replica URL but no `DATABASE_URL`. -/
def envC1c : Environment := fun name =>
  if name = "DB_OFFLINE" then some "leader"
  else if name = "READ_ONLY_REPLICA_URL" then some "postgres://replica"
  else none

/-- Leader offline with both URLs present. -/
def envC1w : Environment := fun name =>
  if name = "DATABASE_URL" then some "postgres://primary"
  else if name = "READ_ONLY_REPLICA_URL" then some "postgres://replica"
  else if name = "DB_OFFLINE" then some "leader"
  else none

/-- Leader offline, no replica URL, and a malformed primary pool size. -/
def envC2c : Environment := fun name =>
  if name = "DATABASE_URL" then some "postgres://primary"
  else if name = "DB_OFFLINE" then some "leader"
  else if name = "DB_PRIMARY_POOL_SIZE" then some "abc"
  else none

/-- Leader offline, no replica URL, everything else absent. -/
def envC2w : Environment := fun name =>
  if name = "DATABASE_URL" then some "postgres://primary"
  else if name = "DB_OFFLINE" then some "leader"
  else none

/-- Follower offline with both URLs and a malformed `DB_TIMEOUT`. -/
def envC4c : Environment := fun name =>
  if name = "DATABASE_URL" then some "postgres://primary"
  else if name = "READ_ONLY_REPLICA_URL" then some "postgres://replica"
  else if name = "DB_OFFLINE" then some "follower"
  else if name = "DB_TIMEOUT" then some "abc"
  else none

/-- Follower offline with both URLs present and well-formed numerics. -/
def envC4w : Environment := fun name =>
  if name = "DATABASE_URL" then some "postgres://primary"
  else if name = "READ_ONLY_REPLICA_URL" then some "postgres://replica"
  else if name = "DB_OFFLINE" then some "follower"
  else none

/-- Normal mode with both URLs and a malformed `DB_HELPER_THREADS`. -/
def envC5c : Environment := fun name =>
  if name = "DATABASE_URL" then some "postgres://primary"
  else if name = "READ_ONLY_REPLICA_URL" then some "postgres://replica"
  else if name = "DB_HELPER_THREADS" then some "xyz"
  else none

/-- Normal mode with both URLs present and nothing else set. -/
def envC5w : Environment := fun name =>
  if name = "DATABASE_URL" then some "postgres://primary"
  else if name = "READ_ONLY_REPLICA_URL" then some "postgres://replica"
  else none

/-- Follower offline with a replica URL but no `DATABASE_URL`. -/
def envC7c : Environment := fun name =>
  if name = "DB_OFFLINE" then some "follower"
  else if name = "READ_ONLY_REPLICA_URL" then some "postgres://replica"
  else none

/-- Follower offline, `DATABASE_URL` absent, malformed `DB_REPLICA_POOL_SIZE`. -/
def envC8c : Environment := fun name =>
  if name = "DB_OFFLINE" then some "follower"
  else if name = "DB_REPLICA_POOL_SIZE" then some "abc"
  else none

/-- Follower offline, `DATABASE_URL` present, malformed `DB_REPLICA_POOL_SIZE`
(the replica pool is not even constructed in this mode). -/
def envC8w : Environment := fun name =>
  if name = "DATABASE_URL" then some "postgres://primary"
  else if name = "DB_OFFLINE" then some "follower"
  else if name = "DB_REPLICA_POOL_SIZE" then some "abc"
  else none

/-- Normal mode, both URLs present, every numeric variable absent. -/
def envC8a : Environment := fun name =>
  if name = "DATABASE_URL" then some "postgres://primary"
  else if name = "READ_ONLY_REPLICA_URL" then some "postgres://replica"
  else none

/-- Normal mode, both URLs, nothing else: a successful resolution. -/
def envC9w : Environment := fun name =>
  if name = "DATABASE_URL" then some "postgres://primary"
  else if name = "READ_ONLY_REPLICA_URL" then some "postgres://replica"
  else none

/-- Leader offline with distinct primary and replica pool settings, to show
which variable the substituted primary draws its settings from. -/
def envC10w : Environment := fun name =>
  if name = "DATABASE_URL" then some "postgres://primary"
  else if name = "READ_ONLY_REPLICA_URL" then some "postgres://replica"
  else if name = "DB_OFFLINE" then some "leader"
  else if name = "DB_PRIMARY_POOL_SIZE" then some "7"
  else if name = "DB_REPLICA_POOL_SIZE" then some "11"
  else if name = "DB_PRIMARY_MIN_IDLE" then some "2"
  else if name = "DB_REPLICA_MIN_IDLE" then some "5"
  else none

instance : DecidableEq (Except ConfigError DatabasePools) := fun a b =>
  match a, b with
  | Except.ok x, Except.ok y =>
    if h : x = y then isTrue (by rw [h]) else isFalse (by intro hc; cases hc; exact h rfl)
  | Except.error x, Except.error y =>
    if h : x = y then isTrue (by rw [h]) else isFalse (by intro hc; cases hc; exact h rfl)
  | Except.ok _, Except.error _ => isFalse (by intro hc; cases hc)
  | Except.error _, Except.ok _ => isFalse (by intro hc; cases hc)


theorem getScalar_ok_of_numOk (environment : Environment) (name : String)
    (bits dflt : Nat) (h : numOk environment name bits = true) :
    ∃ n, getScalar environment name bits dflt = Except.ok n := by
  cases he : environment name with
  | none => exact ⟨dflt, by simp [getScalar, he]⟩
  | some s =>
    cases hp : parseUnsigned bits s with
    | none => simp [numOk, he, hp] at h
    | some n => exact ⟨n, by simp [getScalar, he, hp]⟩

theorem getOptScalar_ok_of_numOk (environment : Environment) (name : String)
    (bits : Nat) (h : numOk environment name bits = true) :
    ∃ o, getOptScalar environment name bits = Except.ok o := by
  cases he : environment name with
  | none => exact ⟨none, by simp [getOptScalar, he]⟩
  | some s =>
    cases hp : parseUnsigned bits s with
    | none => simp [numOk, he, hp] at h
    | some n => exact ⟨some n, by simp [getOptScalar, he, hp]⟩

theorem getScalar_cases (environment : Environment) (name : String) (bits dflt : Nat) :
    (∃ n, getScalar environment name bits dflt = Except.ok n) ∨
    getScalar environment name bits dflt =
      Except.error (ConfigError.invalidNumericValue name) := by
  cases he : environment name with
  | none => exact Or.inl ⟨dflt, by simp [getScalar, he]⟩
  | some s =>
    cases hp : parseUnsigned bits s with
    | none => exact Or.inr (by simp [getScalar, he, hp])
    | some n => exact Or.inl ⟨n, by simp [getScalar, he, hp]⟩

theorem getOptScalar_cases (environment : Environment) (name : String) (bits : Nat) :
    (∃ o, getOptScalar environment name bits = Except.ok o) ∨
    getOptScalar environment name bits =
      Except.error (ConfigError.invalidNumericValue name) := by
  cases he : environment name with
  | none => exact Or.inl ⟨none, by simp [getOptScalar, he]⟩
  | some s =>
    cases hp : parseUnsigned bits s with
    | none => exact Or.inr (by simp [getOptScalar, he, hp])
    | some n => exact Or.inl ⟨some n, by simp [getOptScalar, he, hp]⟩

theorem numOk_of_getScalar_ok (environment : Environment) (name : String)
    (bits dflt n : Nat) (h : getScalar environment name bits dflt = Except.ok n) :
    numOk environment name bits = true := by
  cases he : environment name with
  | none => simp [numOk, he]
  | some s =>
    cases hp : parseUnsigned bits s with
    | none => simp [getScalar, he, hp] at h
    | some m => simp [numOk, he, hp]

theorem numOk_of_getOptScalar_ok (environment : Environment) (name : String)
    (bits : Nat) (o : Option Nat) (h : getOptScalar environment name bits = Except.ok o) :
    numOk environment name bits = true := by
  cases he : environment name with
  | none => simp [numOk, he]
  | some s =>
    cases hp : parseUnsigned bits s with
    | none => simp [getOptScalar, he, hp] at h
    | some m => simp [numOk, he, hp]

theorem getScalar_of_absent (environment : Environment) (name : String)
    (bits dflt : Nat) (h : environment name = none) :
    getScalar environment name bits dflt = Except.ok dflt := by
  simp [getScalar, h]

theorem getOptScalar_of_absent (environment : Environment) (name : String)
    (bits : Nat) (h : environment name = none) :
    getOptScalar environment name bits = Except.ok none := by
  simp [getOptScalar, h]

/-- Claim C3: for every environment in which resolution succeeds and the
resulting replica field is `some`, that replica's `read_only_mode` is true,
in every mode — the replica is never constructed otherwise. -/
theorem C3_replica_always_read_only (base : Base) (environment : Environment) :
    replicaReadOnly? (DatabasePools.full_from_environment base environment) = some true ∨
    replicaReadOnly? (DatabasePools.full_from_environment base environment) = none := by
  unfold DatabasePools.full_from_environment
  repeat' split
  all_goals
    first
      | (right; rfl)
      | (cases hrep : environment "READ_ONLY_REPLICA_URL" with
          | none => right; simp [replicaReadOnly?, hrep]
          | some u => left; simp [replicaReadOnly?, hrep])

/-- Claim C3 witness: a successful normal-mode resolution with a replica,
whose read-only flag is forced true. -/
theorem C3_replica_always_read_only_witness :
    replicaReadOnly? (DatabasePools.full_from_environment baseTest envC9w) = some true ∨
    replicaReadOnly? (DatabasePools.full_from_environment baseTest envC9w) = none :=
  C3_replica_always_read_only baseTest envC9w

/-- Claim C6: for every environment in which resolution succeeds, the
resulting `statement_timeout` equals the resulting `connection_timeout`;
both are copied from the single parsed `DB_TIMEOUT` value (default 30). -/
theorem C6_timeouts_equal (base : Base) (environment : Environment) :
    statementTimeout? (DatabasePools.full_from_environment base environment) =
    connectionTimeout? (DatabasePools.full_from_environment base environment) := by
  unfold DatabasePools.full_from_environment
  repeat' split
  all_goals rfl

/-- Claim C6 witness: the two timeouts coincide on a concrete successful
resolution. -/
theorem C6_timeouts_equal_witness :
    statementTimeout? (DatabasePools.full_from_environment baseTest envC4w) =
    connectionTimeout? (DatabasePools.full_from_environment baseTest envC4w) :=
  C6_timeouts_equal baseTest envC4w

/-- Claim C9: for every environment in which resolution succeeds,
`are_all_read_only` returns exactly the primary pool's `read_only_mode`,
in every mode. -/
theorem C9_are_all_read_only (base : Base) (environment : Environment) :
    areAllReadOnly? (DatabasePools.full_from_environment base environment) =
    primaryReadOnly? (DatabasePools.full_from_environment base environment) := by
  unfold DatabasePools.full_from_environment
  repeat' split
  all_goals rfl

/-- Claim C9 witness: the accessor agrees with the primary flag on a
concrete successful resolution. -/
theorem C9_are_all_read_only_witness :
    areAllReadOnly? (DatabasePools.full_from_environment baseTest envC9w) =
    primaryReadOnly? (DatabasePools.full_from_environment baseTest envC9w) :=
  C9_are_all_read_only baseTest envC9w

/-- Claim C1 counterexample: an environment with `DB_OFFLINE=leader` and
`READ_ONLY_REPLICA_URL` set, in which resolution nevertheless fails —
`DATABASE_URL` is read eagerly before the mode branch, so its absence is
fatal even though leader mode never uses it. -/
theorem C1_counterexample :
    envC1c "DB_OFFLINE" = some "leader" ∧
    envC1c "READ_ONLY_REPLICA_URL" = some "postgres://replica" ∧
    (DatabasePools.full_from_environment baseTest envC1c).isOk = false ∧
    DatabasePools.full_from_environment baseTest envC1c =
      Except.error (ConfigError.missingRequiredValue "DATABASE_URL") := by
  decide

/-- Claim C1 (amended): with `DB_OFFLINE=leader`, `READ_ONLY_REPLICA_URL=X`,
`DATABASE_URL` present, and every numeric variable absent or parseable,
resolution succeeds with `primary.url = X`, `primary.read_only_mode = true`
and no replica. -/
theorem C1_leader_mode_amended (base : Base) (environment : Environment) (x : String)
    (hoff : environment "DB_OFFLINE" = some "leader")
    (hrep : environment "READ_ONLY_REPLICA_URL" = some x)
    (hdb : (environment "DATABASE_URL").isSome = true)
    (hnum : NumericsWellFormed environment) :
    primaryUrl? (DatabasePools.full_from_environment base environment) = some x ∧
    primaryReadOnly? (DatabasePools.full_from_environment base environment) = some true ∧
    replicaConf? (DatabasePools.full_from_environment base environment) = some none := by
  obtain ⟨h1, h2, h3, h4, h5, h6, h7⟩ := hnum
  obtain ⟨u, hu⟩ := Option.isSome_iff_exists.mp hdb
  obtain ⟨n1, g1⟩ := getScalar_ok_of_numOk environment "DB_PRIMARY_POOL_SIZE" 32
    DatabasePools.DEFAULT_POOL_SIZE h1
  obtain ⟨n2, g2⟩ := getScalar_ok_of_numOk environment "DB_REPLICA_POOL_SIZE" 32
    DatabasePools.DEFAULT_POOL_SIZE h2
  obtain ⟨o1, g3⟩ := getOptScalar_ok_of_numOk environment "DB_PRIMARY_MIN_IDLE" 32 h3
  obtain ⟨o2, g4⟩ := getOptScalar_ok_of_numOk environment "DB_REPLICA_MIN_IDLE" 32 h4
  obtain ⟨n3, g5⟩ := getScalar_ok_of_numOk environment "DB_TCP_TIMEOUT_MS" 64 (15 * 1000) h5
  obtain ⟨n4, g6⟩ := getScalar_ok_of_numOk environment "DB_TIMEOUT" 64 30 h6
  obtain ⟨n5, g7⟩ := getScalar_ok_of_numOk environment "DB_HELPER_THREADS" 64 3 h7
  simp [DatabasePools.full_from_environment, env, hu, g1, g2, g3, g4, g5, g6, g7,
    hoff, hrep, primaryUrl?, primaryReadOnly?, replicaConf?]

/-- Claim C1 witness: the amended statement at a concrete leader-offline
environment with both URLs present. -/
theorem C1_leader_mode_amended_witness :
    primaryUrl? (DatabasePools.full_from_environment baseTest envC1w) =
      some "postgres://replica" ∧
    primaryReadOnly? (DatabasePools.full_from_environment baseTest envC1w) = some true ∧
    replicaConf? (DatabasePools.full_from_environment baseTest envC1w) = some none :=
  C1_leader_mode_amended baseTest envC1w "postgres://replica" (by decide) (by decide)
    (by decide) (by decide)

/-- Claim C2 counterexample: with `DB_OFFLINE=leader` and no
`READ_ONLY_REPLICA_URL`, a malformed `DB_PRIMARY_POOL_SIZE` makes
resolution fail with `InvalidNumericValue`, not `MissingRequiredValue` —
the numeric parses run before the mode branch, so the error is not
`MissingRequiredValue` "regardless of all other variables". -/
theorem C2_counterexample :
    envC2c "DB_OFFLINE" = some "leader" ∧
    envC2c "READ_ONLY_REPLICA_URL" = none ∧
    DatabasePools.full_from_environment baseTest envC2c =
      Except.error (ConfigError.invalidNumericValue "DB_PRIMARY_POOL_SIZE") ∧
    isMissingRequired (DatabasePools.full_from_environment baseTest envC2c) = false := by
  decide

/-- Claim C2 (amended): with `DB_OFFLINE=leader` and `READ_ONLY_REPLICA_URL`
absent, resolution always fails; and whenever every numeric variable is
absent or parseable, the failure is a `MissingRequiredValue` (for
`READ_ONLY_REPLICA_URL`, or for `DATABASE_URL` when that is also absent). -/
theorem C2_leader_missing_replica_amended (base : Base) (environment : Environment)
    (hoff : environment "DB_OFFLINE" = some "leader")
    (hrep : environment "READ_ONLY_REPLICA_URL" = none) :
    (DatabasePools.full_from_environment base environment).isOk = false ∧
    (NumericsWellFormed environment →
      isMissingRequired (DatabasePools.full_from_environment base environment) = true) := by
  constructor
  · cases hu : environment "DATABASE_URL" with
    | none => simp [DatabasePools.full_from_environment, env, hu, Except.isOk, Except.toBool]
    | some u =>
      rcases getScalar_cases environment "DB_PRIMARY_POOL_SIZE" 32
        DatabasePools.DEFAULT_POOL_SIZE with ⟨n1, g1⟩ | g1 <;>
      rcases getScalar_cases environment "DB_REPLICA_POOL_SIZE" 32
        DatabasePools.DEFAULT_POOL_SIZE with ⟨n2, g2⟩ | g2 <;>
      rcases getOptScalar_cases environment "DB_PRIMARY_MIN_IDLE" 32 with ⟨o1, g3⟩ | g3 <;>
      rcases getOptScalar_cases environment "DB_REPLICA_MIN_IDLE" 32 with ⟨o2, g4⟩ | g4 <;>
      rcases getScalar_cases environment "DB_TCP_TIMEOUT_MS" 64 (15 * 1000) with ⟨n3, g5⟩ | g5 <;>
      rcases getScalar_cases environment "DB_TIMEOUT" 64 30 with ⟨n4, g6⟩ | g6 <;>
      rcases getScalar_cases environment "DB_HELPER_THREADS" 64 3 with ⟨n5, g7⟩ | g7 <;>
      simp [DatabasePools.full_from_environment, env, hu, hoff, hrep, Except.isOk, Except.toBool,
        g1, g2, g3, g4, g5, g6, g7]
  · intro hnum
    obtain ⟨h1, h2, h3, h4, h5, h6, h7⟩ := hnum
    obtain ⟨n1, g1⟩ := getScalar_ok_of_numOk environment "DB_PRIMARY_POOL_SIZE" 32
      DatabasePools.DEFAULT_POOL_SIZE h1
    obtain ⟨n2, g2⟩ := getScalar_ok_of_numOk environment "DB_REPLICA_POOL_SIZE" 32
      DatabasePools.DEFAULT_POOL_SIZE h2
    obtain ⟨o1, g3⟩ := getOptScalar_ok_of_numOk environment "DB_PRIMARY_MIN_IDLE" 32 h3
    obtain ⟨o2, g4⟩ := getOptScalar_ok_of_numOk environment "DB_REPLICA_MIN_IDLE" 32 h4
    obtain ⟨n3, g5⟩ := getScalar_ok_of_numOk environment "DB_TCP_TIMEOUT_MS" 64 (15 * 1000) h5
    obtain ⟨n4, g6⟩ := getScalar_ok_of_numOk environment "DB_TIMEOUT" 64 30 h6
    obtain ⟨n5, g7⟩ := getScalar_ok_of_numOk environment "DB_HELPER_THREADS" 64 3 h7
    cases hu : environment "DATABASE_URL" with
    | none => simp [DatabasePools.full_from_environment, env, hu, isMissingRequired]
    | some u =>
      simp [DatabasePools.full_from_environment, env, hu, hoff, hrep,
        g1, g2, g3, g4, g5, g6, g7, isMissingRequired]

/-- Claim C2 witness: the amended statement at a concrete leader-offline
environment with no replica URL and well-formed numerics. -/
theorem C2_leader_missing_replica_amended_witness :
    (DatabasePools.full_from_environment baseTest envC2w).isOk = false ∧
    isMissingRequired (DatabasePools.full_from_environment baseTest envC2w) = true :=
  ⟨(C2_leader_missing_replica_amended baseTest envC2w (by decide) (by decide)).1,
   (C2_leader_missing_replica_amended baseTest envC2w (by decide) (by decide)).2 (by decide)⟩

/-- Claim C4 counterexample: an environment with `DB_OFFLINE=follower`,
`DATABASE_URL` and `READ_ONLY_REPLICA_URL` both set, in which resolution
nevertheless fails: a malformed `DB_TIMEOUT` is parsed before the mode
branch, so resolution does not succeed for every such environment. -/
theorem C4_counterexample :
    envC4c "DB_OFFLINE" = some "follower" ∧
    envC4c "DATABASE_URL" = some "postgres://primary" ∧
    envC4c "READ_ONLY_REPLICA_URL" = some "postgres://replica" ∧
    (DatabasePools.full_from_environment baseTest envC4c).isOk = false ∧
    DatabasePools.full_from_environment baseTest envC4c =
      Except.error (ConfigError.invalidNumericValue "DB_TIMEOUT") := by
  decide

/-- Claim C4 (amended): with `DB_OFFLINE=follower`, `DATABASE_URL=Y`,
`READ_ONLY_REPLICA_URL=X`, and every numeric variable absent or parseable,
resolution succeeds with `primary.url = Y`, `primary.read_only_mode` equal
to the presence of `READ_ONLY_MODE`, and no replica (X is silently
discarded). -/
theorem C4_follower_mode_amended (base : Base) (environment : Environment) (x y : String)
    (hoff : environment "DB_OFFLINE" = some "follower")
    (hdb : environment "DATABASE_URL" = some y)
    (_hrep : environment "READ_ONLY_REPLICA_URL" = some x)
    (hnum : NumericsWellFormed environment) :
    primaryUrl? (DatabasePools.full_from_environment base environment) = some y ∧
    primaryReadOnly? (DatabasePools.full_from_environment base environment) =
      some (environment "READ_ONLY_MODE").isSome ∧
    replicaConf? (DatabasePools.full_from_environment base environment) = some none := by
  obtain ⟨h1, h2, h3, h4, h5, h6, h7⟩ := hnum
  obtain ⟨n1, g1⟩ := getScalar_ok_of_numOk environment "DB_PRIMARY_POOL_SIZE" 32
    DatabasePools.DEFAULT_POOL_SIZE h1
  obtain ⟨n2, g2⟩ := getScalar_ok_of_numOk environment "DB_REPLICA_POOL_SIZE" 32
    DatabasePools.DEFAULT_POOL_SIZE h2
  obtain ⟨o1, g3⟩ := getOptScalar_ok_of_numOk environment "DB_PRIMARY_MIN_IDLE" 32 h3
  obtain ⟨o2, g4⟩ := getOptScalar_ok_of_numOk environment "DB_REPLICA_MIN_IDLE" 32 h4
  obtain ⟨n3, g5⟩ := getScalar_ok_of_numOk environment "DB_TCP_TIMEOUT_MS" 64 (15 * 1000) h5
  obtain ⟨n4, g6⟩ := getScalar_ok_of_numOk environment "DB_TIMEOUT" 64 30 h6
  obtain ⟨n5, g7⟩ := getScalar_ok_of_numOk environment "DB_HELPER_THREADS" 64 3 h7
  simp [DatabasePools.full_from_environment, env, hdb, g1, g2, g3, g4, g5, g6, g7,
    hoff, primaryUrl?, primaryReadOnly?, replicaConf?]

/-- Claim C4 witness: the amended statement at a concrete follower-offline
environment with both URLs present and `READ_ONLY_MODE` unset. -/
theorem C4_follower_mode_amended_witness :
    primaryUrl? (DatabasePools.full_from_environment baseTest envC4w) =
      some "postgres://primary" ∧
    primaryReadOnly? (DatabasePools.full_from_environment baseTest envC4w) = some false ∧
    replicaConf? (DatabasePools.full_from_environment baseTest envC4w) = some none :=
  C4_follower_mode_amended baseTest envC4w "postgres://replica" "postgres://primary"
    (by decide) (by decide) (by decide) (by decide)

/-- Claim C5 counterexample: an environment with no `DB_OFFLINE`, both URLs
set and `READ_ONLY_MODE` unset, in which resolution nevertheless fails: a
malformed `DB_HELPER_THREADS` is fatal, so resolution does not succeed for
every such environment. -/
theorem C5_counterexample :
    envC5c "DB_OFFLINE" = none ∧
    envC5c "DATABASE_URL" = some "postgres://primary" ∧
    envC5c "READ_ONLY_REPLICA_URL" = some "postgres://replica" ∧
    envC5c "READ_ONLY_MODE" = none ∧
    (DatabasePools.full_from_environment baseTest envC5c).isOk = false ∧
    DatabasePools.full_from_environment baseTest envC5c =
      Except.error (ConfigError.invalidNumericValue "DB_HELPER_THREADS") := by
  decide

/-- Claim C5 (amended): with `DB_OFFLINE` unset or set to neither `leader`
nor `follower`, `DATABASE_URL=Y`, `READ_ONLY_REPLICA_URL=X`,
`READ_ONLY_MODE` unset, and every numeric variable absent or parseable,
resolution succeeds with `primary.url = Y`, `primary.read_only_mode = false`,
and a replica with `url = X` and `read_only_mode = true`. -/
theorem C5_default_mode_amended (base : Base) (environment : Environment) (x y : String)
    (hoff : isOfflineOverride (environment "DB_OFFLINE") = false)
    (hdb : environment "DATABASE_URL" = some y)
    (hrep : environment "READ_ONLY_REPLICA_URL" = some x)
    (hrom : environment "READ_ONLY_MODE" = none)
    (hnum : NumericsWellFormed environment) :
    primaryUrl? (DatabasePools.full_from_environment base environment) = some y ∧
    primaryReadOnly? (DatabasePools.full_from_environment base environment) = some false ∧
    replicaUrl? (DatabasePools.full_from_environment base environment) = some x ∧
    replicaReadOnly? (DatabasePools.full_from_environment base environment) = some true := by
  obtain ⟨h1, h2, h3, h4, h5, h6, h7⟩ := hnum
  obtain ⟨n1, g1⟩ := getScalar_ok_of_numOk environment "DB_PRIMARY_POOL_SIZE" 32
    DatabasePools.DEFAULT_POOL_SIZE h1
  obtain ⟨n2, g2⟩ := getScalar_ok_of_numOk environment "DB_REPLICA_POOL_SIZE" 32
    DatabasePools.DEFAULT_POOL_SIZE h2
  obtain ⟨o1, g3⟩ := getOptScalar_ok_of_numOk environment "DB_PRIMARY_MIN_IDLE" 32 h3
  obtain ⟨o2, g4⟩ := getOptScalar_ok_of_numOk environment "DB_REPLICA_MIN_IDLE" 32 h4
  obtain ⟨n3, g5⟩ := getScalar_ok_of_numOk environment "DB_TCP_TIMEOUT_MS" 64 (15 * 1000) h5
  obtain ⟨n4, g6⟩ := getScalar_ok_of_numOk environment "DB_TIMEOUT" 64 30 h6
  obtain ⟨n5, g7⟩ := getScalar_ok_of_numOk environment "DB_HELPER_THREADS" 64 3 h7
  cases ho : environment "DB_OFFLINE" with
  | none =>
    simp [DatabasePools.full_from_environment, env, hdb, g1, g2, g3, g4, g5, g6, g7,
      ho, hrep, hrom, primaryUrl?, primaryReadOnly?, replicaUrl?, replicaReadOnly?]
  | some s =>
    rw [ho] at hoff
    simp only [isOfflineOverride, Bool.or_eq_false_iff, beq_eq_false_iff_ne] at hoff
    simp [DatabasePools.full_from_environment, env, hdb, g1, g2, g3, g4, g5, g6, g7,
      ho, hrep, hrom, hoff.1, hoff.2,
      primaryUrl?, primaryReadOnly?, replicaUrl?, replicaReadOnly?]

/-- Claim C5 witness: the amended statement at a concrete normal-mode
environment with both URLs present and nothing else set. -/
theorem C5_default_mode_amended_witness :
    primaryUrl? (DatabasePools.full_from_environment baseTest envC5w) =
      some "postgres://primary" ∧
    primaryReadOnly? (DatabasePools.full_from_environment baseTest envC5w) = some false ∧
    replicaUrl? (DatabasePools.full_from_environment baseTest envC5w) =
      some "postgres://replica" ∧
    replicaReadOnly? (DatabasePools.full_from_environment baseTest envC5w) = some true :=
  C5_default_mode_amended baseTest envC5w "postgres://replica" "postgres://primary"
    (by decide) (by decide) (by decide) (by decide) (by decide)

/-- Claim C7 counterexample: with `DB_OFFLINE=follower` and `DATABASE_URL`
absent, resolution fails with `MissingRequiredValue` — the claim says it
must not fail in follower-offline mode, but `DATABASE_URL` is read (and
used for the primary pool) in that mode too. -/
theorem C7_counterexample :
    envC7c "DB_OFFLINE" = some "follower" ∧
    envC7c "DATABASE_URL" = none ∧
    (DatabasePools.full_from_environment baseTest envC7c).isOk = false ∧
    DatabasePools.full_from_environment baseTest envC7c =
      Except.error (ConfigError.missingRequiredValue "DATABASE_URL") := by
  decide

/-- Claim C7 (amended): resolution fails with `MissingRequiredValue` for
`DATABASE_URL` whenever `DATABASE_URL` is absent, in every mode —
the variable is read eagerly before the `DB_OFFLINE` branch, and
follower-offline mode actually uses it for the primary pool. -/
theorem C7_database_url_required_amended (base : Base) (environment : Environment)
    (hdb : environment "DATABASE_URL" = none) :
    DatabasePools.full_from_environment base environment =
      Except.error (ConfigError.missingRequiredValue "DATABASE_URL") := by
  simp [DatabasePools.full_from_environment, env, hdb]

/-- Claim C7 witness: the amended statement at a concrete follower-offline
environment with `DATABASE_URL` absent. -/
theorem C7_database_url_required_amended_witness :
    DatabasePools.full_from_environment baseTest envC7c =
      Except.error (ConfigError.missingRequiredValue "DATABASE_URL") :=
  C7_database_url_required_amended baseTest envC7c (by decide)

/-- Claim C8 counterexample: `DB_REPLICA_POOL_SIZE` is present and not
parseable, yet resolution fails with `MissingRequiredValue` rather than
`InvalidNumericValue`, because the absent `DATABASE_URL` is checked before
any numeric variable is parsed. -/
theorem C8_counterexample :
    envC8c "DB_REPLICA_POOL_SIZE" = some "abc" ∧
    parseUnsigned 32 "abc" = none ∧
    DatabasePools.full_from_environment baseTest envC8c =
      Except.error (ConfigError.missingRequiredValue "DATABASE_URL") ∧
    isInvalidNumeric (DatabasePools.full_from_environment baseTest envC8c) = false := by
  decide

/-- Inversion of a successful resolution: whatever the mode, each scalar
field of the result is exactly the value produced by the getter of its own
environment variable, the statement timeout is a copy of the connection
timeout, and the replica scalars come from the replica getters whenever a
replica was built. -/
theorem full_ok_fields (base : Base) (environment : Environment) (res : DatabasePools)
    (hf : DatabasePools.full_from_environment base environment = Except.ok res) :
    getScalar environment "DB_PRIMARY_POOL_SIZE" 32 DatabasePools.DEFAULT_POOL_SIZE =
      Except.ok res.primary.pool_size ∧
    getOptScalar environment "DB_PRIMARY_MIN_IDLE" 32 = Except.ok res.primary.min_idle ∧
    getScalar environment "DB_TCP_TIMEOUT_MS" 64 (15 * 1000) =
      Except.ok res.tcp_timeout_ms ∧
    getScalar environment "DB_TIMEOUT" 64 30 = Except.ok res.connection_timeout ∧
    res.statement_timeout = res.connection_timeout ∧
    getScalar environment "DB_HELPER_THREADS" 64 3 = Except.ok res.helper_threads ∧
    (∀ c, res.replica = some c →
      getScalar environment "DB_REPLICA_POOL_SIZE" 32 DatabasePools.DEFAULT_POOL_SIZE =
        Except.ok c.pool_size ∧
      getOptScalar environment "DB_REPLICA_MIN_IDLE" 32 = Except.ok c.min_idle) := by
  unfold DatabasePools.full_from_environment at hf
  repeat' split at hf
  all_goals first
    | exact Except.noConfusion hf
    | (injection hf with hf
       rw [← hf]
       simp_all)

/-- Claim C8 (amended): every numeric scalar is computed once, independent
of the `DB_OFFLINE` mode.  Per variable: whenever that variable is absent,
any successful resolution carries its declared default (pool sizes 3,
min-idle unset, tcp timeout 15000 ms, both timeouts 30 s, helper threads 3),
regardless of which other variables are set; and whenever some numeric
variable is present but not parseable, resolution fails, with
`InvalidNumericValue` provided `DATABASE_URL` is present (an absent
`DATABASE_URL` is reported first, as `MissingRequiredValue`). -/
theorem C8_scalars_amended (base : Base) (environment : Environment) :
    (environment "DB_PRIMARY_POOL_SIZE" = none →
      (DatabasePools.full_from_environment base environment).isOk = false ∨
      primaryPoolSize? (DatabasePools.full_from_environment base environment) = some 3) ∧
    (environment "DB_REPLICA_POOL_SIZE" = none →
      (DatabasePools.full_from_environment base environment).isOk = false ∨
      replicaPoolSize? (DatabasePools.full_from_environment base environment) = some none ∨
      replicaPoolSize? (DatabasePools.full_from_environment base environment) =
        some (some 3)) ∧
    (environment "DB_PRIMARY_MIN_IDLE" = none →
      (DatabasePools.full_from_environment base environment).isOk = false ∨
      primaryMinIdle? (DatabasePools.full_from_environment base environment) = some none) ∧
    (environment "DB_REPLICA_MIN_IDLE" = none →
      (DatabasePools.full_from_environment base environment).isOk = false ∨
      replicaMinIdle? (DatabasePools.full_from_environment base environment) = some none ∨
      replicaMinIdle? (DatabasePools.full_from_environment base environment) =
        some (some none)) ∧
    (environment "DB_TCP_TIMEOUT_MS" = none →
      (DatabasePools.full_from_environment base environment).isOk = false ∨
      tcpTimeout? (DatabasePools.full_from_environment base environment) = some 15000) ∧
    (environment "DB_TIMEOUT" = none →
      (DatabasePools.full_from_environment base environment).isOk = false ∨
      (connectionTimeout? (DatabasePools.full_from_environment base environment) =
          some 30 ∧
       statementTimeout? (DatabasePools.full_from_environment base environment) =
          some 30)) ∧
    (environment "DB_HELPER_THREADS" = none →
      (DatabasePools.full_from_environment base environment).isOk = false ∨
      helperThreads? (DatabasePools.full_from_environment base environment) = some 3) ∧
    ((environment "DATABASE_URL").isSome = true → ¬ NumericsWellFormed environment →
      isInvalidNumeric (DatabasePools.full_from_environment base environment) = true) := by
  refine ⟨?_, ?_, ?_, ?_, ?_, ?_, ?_, ?_⟩
  · intro habs
    cases hf : DatabasePools.full_from_environment base environment with
    | error e => left; simp [Except.isOk, Except.toBool]
    | ok res =>
      right
      have hg := (full_ok_fields base environment res hf).1
      rw [getScalar_of_absent environment "DB_PRIMARY_POOL_SIZE" 32
        DatabasePools.DEFAULT_POOL_SIZE habs] at hg
      injection hg with hg
      simp [primaryPoolSize?, ← hg, DatabasePools.DEFAULT_POOL_SIZE]
  · intro habs
    cases hf : DatabasePools.full_from_environment base environment with
    | error e => left; simp [Except.isOk, Except.toBool]
    | ok res =>
      right
      have hfields := full_ok_fields base environment res hf
      cases hr : res.replica with
      | none => left; simp [replicaPoolSize?, hr]
      | some c =>
        right
        have hg := (hfields.2.2.2.2.2.2 c (by simp [hr])).1
        rw [getScalar_of_absent environment "DB_REPLICA_POOL_SIZE" 32
          DatabasePools.DEFAULT_POOL_SIZE habs] at hg
        injection hg with hg
        simp [replicaPoolSize?, hr, ← hg, DatabasePools.DEFAULT_POOL_SIZE]
  · intro habs
    cases hf : DatabasePools.full_from_environment base environment with
    | error e => left; simp [Except.isOk, Except.toBool]
    | ok res =>
      right
      have hg := (full_ok_fields base environment res hf).2.1
      rw [getOptScalar_of_absent environment "DB_PRIMARY_MIN_IDLE" 32 habs] at hg
      injection hg with hg
      simp [primaryMinIdle?, ← hg]
  · intro habs
    cases hf : DatabasePools.full_from_environment base environment with
    | error e => left; simp [Except.isOk, Except.toBool]
    | ok res =>
      right
      have hfields := full_ok_fields base environment res hf
      cases hr : res.replica with
      | none => left; simp [replicaMinIdle?, hr]
      | some c =>
        right
        have hg := (hfields.2.2.2.2.2.2 c (by simp [hr])).2
        rw [getOptScalar_of_absent environment "DB_REPLICA_MIN_IDLE" 32 habs] at hg
        injection hg with hg
        simp [replicaMinIdle?, hr, ← hg]
  · intro habs
    cases hf : DatabasePools.full_from_environment base environment with
    | error e => left; simp [Except.isOk, Except.toBool]
    | ok res =>
      right
      have hg := (full_ok_fields base environment res hf).2.2.1
      rw [getScalar_of_absent environment "DB_TCP_TIMEOUT_MS" 64 (15 * 1000) habs] at hg
      injection hg with hg
      simp [tcpTimeout?, ← hg]
  · intro habs
    cases hf : DatabasePools.full_from_environment base environment with
    | error e => left; simp [Except.isOk, Except.toBool]
    | ok res =>
      right
      have hfields := full_ok_fields base environment res hf
      have hg := hfields.2.2.2.1
      have hstmt := hfields.2.2.2.2.1
      rw [getScalar_of_absent environment "DB_TIMEOUT" 64 30 habs] at hg
      injection hg with hg
      constructor
      · simp [connectionTimeout?, ← hg]
      · simp [statementTimeout?, hstmt, ← hg]
  · intro habs
    cases hf : DatabasePools.full_from_environment base environment with
    | error e => left; simp [Except.isOk, Except.toBool]
    | ok res =>
      right
      have hg := (full_ok_fields base environment res hf).2.2.2.2.2.1
      rw [getScalar_of_absent environment "DB_HELPER_THREADS" 64 3 habs] at hg
      injection hg with hg
      simp [helperThreads?, ← hg]
  · intro hdb hbad
    obtain ⟨u, hu⟩ := Option.isSome_iff_exists.mp hdb
    rcases getScalar_cases environment "DB_PRIMARY_POOL_SIZE" 32
      DatabasePools.DEFAULT_POOL_SIZE with ⟨n1, g1⟩ | g1
    · rcases getScalar_cases environment "DB_REPLICA_POOL_SIZE" 32
        DatabasePools.DEFAULT_POOL_SIZE with ⟨n2, g2⟩ | g2
      · rcases getOptScalar_cases environment "DB_PRIMARY_MIN_IDLE" 32 with ⟨o1, g3⟩ | g3
        · rcases getOptScalar_cases environment "DB_REPLICA_MIN_IDLE" 32 with ⟨o2, g4⟩ | g4
          · rcases getScalar_cases environment "DB_TCP_TIMEOUT_MS" 64 (15 * 1000)
              with ⟨n3, g5⟩ | g5
            · rcases getScalar_cases environment "DB_TIMEOUT" 64 30 with ⟨n4, g6⟩ | g6
              · rcases getScalar_cases environment "DB_HELPER_THREADS" 64 3 with ⟨n5, g7⟩ | g7
                · exact absurd ⟨numOk_of_getScalar_ok _ _ _ _ _ g1,
                    numOk_of_getScalar_ok _ _ _ _ _ g2,
                    numOk_of_getOptScalar_ok _ _ _ _ g3,
                    numOk_of_getOptScalar_ok _ _ _ _ g4,
                    numOk_of_getScalar_ok _ _ _ _ _ g5,
                    numOk_of_getScalar_ok _ _ _ _ _ g6,
                    numOk_of_getScalar_ok _ _ _ _ _ g7⟩ hbad
                · simp [DatabasePools.full_from_environment, env, hu,
                    g1, g2, g3, g4, g5, g6, g7, isInvalidNumeric]
              · simp [DatabasePools.full_from_environment, env, hu,
                  g1, g2, g3, g4, g5, g6, isInvalidNumeric]
            · simp [DatabasePools.full_from_environment, env, hu,
                g1, g2, g3, g4, g5, isInvalidNumeric]
          · simp [DatabasePools.full_from_environment, env, hu,
              g1, g2, g3, g4, isInvalidNumeric]
        · simp [DatabasePools.full_from_environment, env, hu, g1, g2, g3, isInvalidNumeric]
      · simp [DatabasePools.full_from_environment, env, hu, g1, g2, isInvalidNumeric]
    · simp [DatabasePools.full_from_environment, env, hu, g1, isInvalidNumeric]

/-- Claim C8 witness: the amended statement applied at two concrete
environments — a malformed `DB_REPLICA_POOL_SIZE` under `DB_OFFLINE=follower`
(whose pool is not even constructed) is a fatal numeric error, and in a
mixed leader-offline environment that sets the pool sizes and min-idle
values but leaves `DB_TIMEOUT` and `DB_HELPER_THREADS` absent, the
successful resolution carries the per-variable defaults 30 and 3. -/
theorem C8_scalars_amended_witness :
    (envC8w "DB_OFFLINE" = some "follower" ∧
     envC8w "DB_REPLICA_POOL_SIZE" = some "abc" ∧
     isInvalidNumeric (DatabasePools.full_from_environment baseTest envC8w) = true) ∧
    (envC10w "DB_PRIMARY_POOL_SIZE" = some "7" ∧
     envC10w "DB_TIMEOUT" = none ∧
     envC10w "DB_HELPER_THREADS" = none ∧
     (DatabasePools.full_from_environment baseTest envC10w).isOk = true ∧
     ((DatabasePools.full_from_environment baseTest envC10w).isOk = false ∨
       (connectionTimeout? (DatabasePools.full_from_environment baseTest envC10w) =
          some 30 ∧
        statementTimeout? (DatabasePools.full_from_environment baseTest envC10w) =
          some 30)) ∧
     ((DatabasePools.full_from_environment baseTest envC10w).isOk = false ∨
       helperThreads? (DatabasePools.full_from_environment baseTest envC10w) = some 3)) :=
  ⟨⟨by decide, by decide,
    (C8_scalars_amended baseTest envC8w).2.2.2.2.2.2.2 (by decide) (by decide)⟩,
   ⟨by decide, by decide, by decide, by decide,
    (C8_scalars_amended baseTest envC10w).2.2.2.2.2.1 (by decide),
    (C8_scalars_amended baseTest envC10w).2.2.2.2.2.2.1 (by decide)⟩⟩

/-- Claim C10: when resolution succeeds with `DB_OFFLINE=leader`, the
substituted primary pool takes its `pool_size` from `DB_PRIMARY_POOL_SIZE`
and its `min_idle` from `DB_PRIMARY_MIN_IDLE` (the primary getters, not the
replica ones), even though its `url` comes from `READ_ONLY_REPLICA_URL`. -/
theorem C10_leader_primary_settings (base : Base) (environment : Environment)
    (hoff : environment "DB_OFFLINE" = some "leader")
    (hok : (DatabasePools.full_from_environment base environment).isOk = true) :
    primaryPoolSize? (DatabasePools.full_from_environment base environment) =
      (getScalar environment "DB_PRIMARY_POOL_SIZE" 32
        DatabasePools.DEFAULT_POOL_SIZE).toOption ∧
    primaryMinIdle? (DatabasePools.full_from_environment base environment) =
      (getOptScalar environment "DB_PRIMARY_MIN_IDLE" 32).toOption ∧
    primaryUrl? (DatabasePools.full_from_environment base environment) =
      environment "READ_ONLY_REPLICA_URL" := by
  cases hf : DatabasePools.full_from_environment base environment with
  | error e => rw [hf] at hok; simp [Except.isOk, Except.toBool] at hok
  | ok res =>
    unfold DatabasePools.full_from_environment at hf
    repeat' split at hf
    all_goals try simp_all [primaryPoolSize?, primaryMinIdle?, primaryUrl?, Except.toOption]
    all_goals rw [← hf]
    all_goals simp

/-- Claim C10 witness: with `DB_PRIMARY_POOL_SIZE=7`, `DB_REPLICA_POOL_SIZE=11`,
`DB_PRIMARY_MIN_IDLE=2`, `DB_REPLICA_MIN_IDLE=5` under `DB_OFFLINE=leader`,
the primary pool gets size 7 and min-idle 2 while its url is the replica's. -/
theorem C10_leader_primary_settings_witness :
    envC10w "DB_PRIMARY_POOL_SIZE" = some "7" ∧
    envC10w "DB_REPLICA_POOL_SIZE" = some "11" ∧
    primaryPoolSize? (DatabasePools.full_from_environment baseTest envC10w) = some 7 ∧
    primaryMinIdle? (DatabasePools.full_from_environment baseTest envC10w) = some (some 2) ∧
    primaryUrl? (DatabasePools.full_from_environment baseTest envC10w) =
      some "postgres://replica" :=
  ⟨by decide, by decide,
   ((C10_leader_primary_settings baseTest envC10w (by decide) (by decide)).1).trans
     (by decide),
   ((C10_leader_primary_settings baseTest envC10w (by decide) (by decide)).2.1).trans
     (by decide),
   ((C10_leader_primary_settings baseTest envC10w (by decide) (by decide)).2.2).trans
     (by decide)⟩
